import Mathlib

/-!
# Shallow embedding of the us-time-backend mental-health assessment service

This file embeds the Python source of the repository (FastAPI + SQLAlchemy over
SQLite) into Lean 4 and proves the specification claims about it.

Modelling conventions:
* A SQLAlchemy table is a `List` of row structures inside a `Store`; the
  autoincrement primary key is modelled by a per-table `next…Id` counter.
* `session.query(T).filter(cond).first()` is `List.find?`; `.all()` with a
  filter is `List.filter`; an insert appends the new row and bumps the counter.
* `HTTPException(status_code, detail)` and uncaught server failures are the
  `Except.error` side of `Except HTTPError _`; mutating endpoints return the
  (possibly unchanged) store alongside the response, so "rejected before any
  write" is visible as the store coming back equal.
* `uuid.uuid4()` is nondeterministic, so the generated session token is passed
  to `Migration.create_assessment` as an explicit argument.
* The `unique=True` index on `assessments.session_id` (models.py line 39) is
  enforced by the database at commit time: a commit that would duplicate it
  raises `IntegrityError`, which propagates uncaught as a server error with no
  write.  The three code paths that write `session_id` model that check.
* Python `answer.lower() == "yes"` is `String.toLower == "yes"`: the only
  characters whose Python lower-casing is `y`/`e`/`s` are the ASCII letters,
  which `String.toLower` maps identically.
-/

/-- `HTTPException(status_code=…, detail=…)` / an uncaught server error. -/
structure HTTPError where
  status : Nat
  detail : String
deriving DecidableEq, Repr

/-- Row of table `disorders` (models.py `Disorder`). -/
structure DisorderRow where
  id : Nat
  name : String
  description : String
  symptoms : Option String
deriving DecidableEq, Repr

/-- Row of table `remedies` (models.py `Remedy`). -/
structure RemedyRow where
  id : Nat
  disorder_id : Nat
  title : String
  description : String
  category : Option String
deriving DecidableEq, Repr

/-- The JSON column `assessments.answers` holds a plain string on the legacy
path (src/app.py stores `answers: str`) and a list of strings on the migration
path (src/migration/app.py stores `List[str]`). -/
inductive AnswersVal where
  | str (s : String)
  | list (l : List String)
deriving DecidableEq, Repr

/-- Row of table `assessments` (models.py `Assessment`). -/
structure AssessmentRow where
  id : Nat
  session_id : String
  answers : AnswersVal
  result : String
  severity_score : Int
  suggested_disorder_ids : Option (List Int)
deriving DecidableEq, Repr

/-- Row of table `questions` (models.py `Question`). -/
structure QuestionRow where
  id : Nat
  text : String
  category : Option String
  weight : Int
  order_index : Int
  is_active : Int
deriving DecidableEq, Repr

/-- The relational store: one list per table plus autoincrement counters. -/
structure Store where
  disorders : List DisorderRow
  remedies : List RemedyRow
  assessments : List AssessmentRow
  questions : List QuestionRow
  nextDisorderId : Nat
  nextRemedyId : Nat
  nextAssessmentId : Nat
  nextQuestionId : Nat
deriving DecidableEq, Repr

/-- The empty database. -/
def Store.empty : Store :=
  { disorders := [], remedies := [], assessments := [], questions := []
    nextDisorderId := 1, nextRemedyId := 1, nextAssessmentId := 1, nextQuestionId := 1 }

/-- SQLAlchemy mutates the single row returned by `.first()`; this applies `f`
to the first element satisfying `p` and leaves the rest untouched. -/
def updateFirst (p : α → Bool) (f : α → α) : List α → List α
  | [] => []
  | x :: xs => if p x then f x :: xs else x :: updateFirst p f xs

namespace Migration

/-- Pydantic `AssessmentRequest` (migration/app.py). -/
structure AssessmentRequest where
  answers : List String
deriving DecidableEq, Repr

/-- Pydantic `AssessmentResponse` (migration/app.py). -/
structure AssessmentResponse where
  session_id : String
  result : String
  remedies : List String
  severity : String
  severity_score : Nat
deriving DecidableEq, Repr

/-- Pydantic `DisorderResponse` (migration/app.py). -/
structure DisorderResponse where
  id : Nat
  name : String
  description : String
  symptoms : Option String
  remedies : List String
deriving DecidableEq, Repr

/-- The dict returned by `calculate_assessment_result`. -/
structure ScoreResult where
  result : String
  severity : String
  severity_score : Nat
  remedies : List String
deriving DecidableEq, Repr

/-- Python `str.lower()`: lower-case the string character by character (as
noted in the header, char-wise ASCII lowering agrees with Python on the
`== "yes"` test). -/
def pyLower (s : String) : String := ⟨s.data.map Char.toLower⟩

/-- `sum(1 for answer in answers if answer.lower() == "yes")`. -/
def yes_count (answers : List String) : Nat :=
  answers.countP (fun answer => pyLower answer == "yes")

/-- Narrative of the `yes_count >= 4` branch. -/
def highResult : String :=
  "Based on your responses, you may be experiencing significant symptoms. Professional support is recommended."

/-- Remedy list of the `yes_count >= 4` branch. -/
def highRemedies : List String :=
  ["Consult with a mental health professional",
   "Consider therapy or counseling",
   "Practice daily self-care routines",
   "Reach out to support networks",
   "Consider medication evaluation with a doctor"]

/-- Narrative of the `yes_count >= 2` branch. -/
def mediumResult : String :=
  "You're showing some symptoms that may benefit from attention and self-care."

/-- Remedy list of the `yes_count >= 2` branch. -/
def mediumRemedies : List String :=
  ["Practice mindfulness and meditation",
   "Maintain a consistent daily routine",
   "Engage in regular physical activity",
   "Connect with friends and family",
   "Monitor your symptoms over time"]

/-- Narrative of the final (low) branch. -/
def lowResult : String :=
  "Your responses suggest you're managing well. Continue healthy habits."

/-- Remedy list of the final (low) branch. -/
def lowRemedies : List String :=
  ["Continue with your current healthy routines",
   "Stay connected with your support system",
   "Practice stress management techniques",
   "Regular mental health check-ins",
   "Help others who may be struggling"]

/-- `calculate_assessment_result` (migration/app.py lines 70-112). -/
def calculate_assessment_result (answers : List String) : ScoreResult :=
  let yc := yes_count answers
  if yc ≥ 4 then
    { result := highResult, severity := "high", severity_score := yc, remedies := highRemedies }
  else if yc ≥ 2 then
    { result := mediumResult, severity := "medium", severity_score := yc, remedies := mediumRemedies }
  else
    { result := lowResult, severity := "low", severity_score := yc, remedies := lowRemedies }

/-- `POST /api/assessments` (migration/app.py lines 137-183).  `session_id` is
the value `str(uuid.uuid4())` would generate, passed in explicitly. -/
def create_assessment (s : Store) (assessment : AssessmentRequest) (session_id : String) :
    Except HTTPError AssessmentResponse × Store :=
  if assessment.answers.isEmpty then
    (.error ⟨400, "Answers are required"⟩, s)
  else if assessment.answers.length < 5 then
    (.error ⟨400, "Please answer all questions"⟩, s)
  else if s.assessments.any (fun a => a.session_id == session_id) then
    -- the unique index on session_id rejects the commit (IntegrityError → 500)
    (.error ⟨500, "IntegrityError"⟩, s)
  else
    let result_data := calculate_assessment_result assessment.answers
    let db_assessment : AssessmentRow :=
      { id := s.nextAssessmentId
        session_id := session_id
        answers := .list assessment.answers
        result := result_data.result
        severity_score := result_data.severity_score
        suggested_disorder_ids := none }
    (.ok { session_id := session_id
           result := result_data.result
           remedies := result_data.remedies
           severity := result_data.severity
           severity_score := result_data.severity_score },
     { s with assessments := s.assessments ++ [db_assessment]
              nextAssessmentId := s.nextAssessmentId + 1 })

/-- `GET /api/assessments/{session_id}` (migration/app.py lines 185-193). -/
def get_assessment (s : Store) (session_id : String) : Except HTTPError AssessmentRow :=
  match s.assessments.find? (fun a => a.session_id == session_id) with
  | none => .error ⟨404, "Assessment not found"⟩
  | some assessment => .ok assessment

/-- `GET /api/disorders/{disorder_id}` (migration/app.py lines 218-236). -/
def get_disorder (s : Store) (disorder_id : Nat) : Except HTTPError DisorderResponse :=
  match s.disorders.find? (fun d => d.id == disorder_id) with
  | none => .error ⟨404, "Disorder not found"⟩
  | some disorder =>
    let remedy_list := (s.remedies.filter (fun r => r.disorder_id == disorder_id)).map (·.title)
    .ok { id := disorder.id, name := disorder.name, description := disorder.description
          symptoms := disorder.symptoms, remedies := remedy_list }

/-- `GET /api/questions` (migration/app.py lines 263-267): active questions
ordered by `order_index` (`ORDER BY` fixes the key order, not tie order). -/
def get_questions (s : Store) : List QuestionRow :=
  List.insertionSort (fun a b => a.order_index ≤ b.order_index)
    (s.questions.filter (fun q => q.is_active == 1))

instance : IsTotal QuestionRow (fun a b => a.order_index ≤ b.order_index) :=
  ⟨fun a b => Int.le_total a.order_index b.order_index⟩

instance : IsTrans QuestionRow (fun a b => a.order_index ≤ b.order_index) :=
  ⟨fun _ _ _ hab hbc => le_trans hab hbc⟩

/-- `GET /api/remedies/{remedy_id}` (migration/app.py lines 277-285). -/
def get_remedy (s : Store) (remedy_id : Nat) : Except HTTPError RemedyRow :=
  match s.remedies.find? (fun r => r.id == remedy_id) with
  | none => .error ⟨404, "Remedy not found"⟩
  | some remedy => .ok remedy

/-- `POST /api/seed-data` (migration/app.py lines 289-363). -/
def seed_initial_data (s : Store) : String × Store :=
  if s.disorders.length > 0 then
    ("Data already seeded", s)
  else
    let d0 := s.nextDisorderId
    let created_disorders : List DisorderRow :=
      [{ id := d0, name := "Depression"
         description := "A mental health disorder characterized by persistent sadness, loss of interest in activities, and difficulty carrying out daily tasks."
         symptoms := some "Persistent sadness, hopelessness, loss of interest, sleep disturbances, changes in appetite, fatigue, difficulty concentrating" },
       { id := d0 + 1, name := "Anxiety Disorder"
         description := "Excessive worry, fear, or anxiety that interferes with daily activities and is difficult to control."
         symptoms := some "Excessive worry, restlessness, fatigue, difficulty concentrating, irritability, muscle tension, sleep problems" },
       { id := d0 + 2, name := "Bipolar Disorder"
         description := "A disorder associated with episodes of mood swings ranging from depressive lows to manic highs."
         symptoms := some "Mood swings, manic episodes, depressive episodes, racing thoughts, irritability, sleep changes, risk-taking behavior" }]
    let r0 := s.nextRemedyId
    let remedies : List RemedyRow :=
      [{ id := r0, disorder_id := d0, title := "Cognitive Behavioral Therapy"
         description := "A type of psychotherapy that helps identify and change negative thought patterns.", category := some "therapy" },
       { id := r0 + 1, disorder_id := d0, title := "Antidepressant Medication"
         description := "Medications that can help relieve symptoms of depression.", category := some "medication" },
       { id := r0 + 2, disorder_id := d0, title := "Regular Exercise"
         description := "Physical activity releases endorphins and improves mood.", category := some "lifestyle" },
       { id := r0 + 3, disorder_id := d0 + 1, title := "Exposure Therapy"
         description := "Gradual exposure to feared situations to reduce anxiety.", category := some "therapy" },
       { id := r0 + 4, disorder_id := d0 + 1, title := "Mindfulness Meditation"
         description := "Practice focusing on the present moment to reduce worry.", category := some "lifestyle" },
       { id := r0 + 5, disorder_id := d0 + 1, title := "Anti-anxiety Medication"
         description := "Medications that can help reduce anxiety symptoms.", category := some "medication" },
       { id := r0 + 6, disorder_id := d0 + 2, title := "Mood Stabilizers"
         description := "Medications that help control mood swings.", category := some "medication" },
       { id := r0 + 7, disorder_id := d0 + 2, title := "Psychoeducation"
         description := "Learning about the disorder and developing coping strategies.", category := some "therapy" },
       { id := r0 + 8, disorder_id := d0 + 2, title := "Regular Sleep Schedule"
         description := "Maintaining consistent sleep patterns to help stabilize mood.", category := some "lifestyle" }]
    let q0 := s.nextQuestionId
    let questions : List QuestionRow :=
      [{ id := q0, text := "Have you experienced persistent feelings of sadness or hopelessness?"
         category := some "mood", weight := 2, order_index := 1, is_active := 1 },
       { id := q0 + 1, text := "Have you lost interest or pleasure in activities you used to enjoy?"
         category := some "interest", weight := 2, order_index := 2, is_active := 1 },
       { id := q0 + 2, text := "Have you noticed changes in your appetite or weight?"
         category := some "appetite", weight := 1, order_index := 3, is_active := 1 },
       { id := q0 + 3, text := "Do you have trouble sleeping or sleep too much?"
         category := some "sleep", weight := 1, order_index := 4, is_active := 1 },
       { id := q0 + 4, text := "Do you often feel tired or lack energy?"
         category := some "energy", weight := 1, order_index := 5, is_active := 1 }]
    ("Database seeded successfully",
     { s with disorders := s.disorders ++ created_disorders
              remedies := s.remedies ++ remedies
              questions := s.questions ++ questions
              nextDisorderId := d0 + 3
              nextRemedyId := r0 + 9
              nextQuestionId := q0 + 5 })

end Migration

namespace App

/-- Pydantic `DisorderSchema` (src/app.py). -/
structure DisorderSchema where
  name : String
  description : String
  symptoms : String
deriving DecidableEq, Repr

/-- Pydantic `AssessmentSchema` (src/app.py): answers is a plain string. -/
structure AssessmentSchema where
  session_id : String
  answers : String
  result : String
  severity_score : Int
  disorder_id : Int
deriving DecidableEq, Repr

/-- `POST /disorder` (src/app.py lines 38-54). -/
def create_disorder (s : Store) (disorder : DisorderSchema) : String × Store :=
  match s.disorders.find? (fun d => d.name == disorder.name) with
  | none =>
    let new_disorder : DisorderRow :=
      { id := s.nextDisorderId, name := disorder.name
        description := disorder.description, symptoms := some disorder.symptoms }
    ("Disorder created successfully",
     { s with disorders := s.disorders ++ [new_disorder]
              nextDisorderId := s.nextDisorderId + 1 })
  | some _ => ("Disorder already exists", s)

/-- `GET /disorder/{disorder_id}` (src/app.py lines 64-70). -/
def get_disorder (s : Store) (disorder_id : Nat) : Except HTTPError DisorderRow :=
  match s.disorders.find? (fun d => d.id == disorder_id) with
  | none => .error ⟨404, "Disorder not found"⟩
  | some disorder => .ok disorder

/-- `PATCH /disorder/{disorder_id}` (src/app.py lines 73-82). -/
def update_disorder (s : Store) (disorder_id : Nat) (disorder : DisorderSchema) :
    Except HTTPError String × Store :=
  match s.disorders.find? (fun d => d.id == disorder_id) with
  | none => (.error ⟨404, "Disorder not found"⟩, s)
  | some _ =>
    (.ok "Disorder updated successfully",
     { s with disorders := updateFirst (fun d => d.id == disorder_id)
                (fun d => { d with name := disorder.name
                                   description := disorder.description
                                   symptoms := some disorder.symptoms })
                s.disorders })

/-- `DELETE /disorder/{disorder_id}` (src/app.py lines 85-92).
`session.delete(disorder)` removes the row; the `cascade="all, delete"` on
`Disorder.remedies` (models.py line 18) deletes every remedy of that disorder
in the same commit. -/
def delete_disorder (s : Store) (disorder_id : Nat) : Except HTTPError String × Store :=
  match s.disorders.find? (fun d => d.id == disorder_id) with
  | none => (.error ⟨404, "Disorder not found"⟩, s)
  | some _ =>
    (.ok "Disorder deleted successfully",
     { s with disorders := s.disorders.eraseP (fun d => d.id == disorder_id)
              remedies := s.remedies.filter (fun r => !(r.disorder_id == disorder_id)) })

/-- `POST /assessment` (src/app.py lines 102-117).  The commit fails with
`IntegrityError` when the unique index on `session_id` is violated. -/
def create_assessment (s : Store) (assessment : AssessmentSchema) :
    Except HTTPError String × Store :=
  if s.assessments.any (fun a => a.session_id == assessment.session_id) then
    (.error ⟨500, "IntegrityError"⟩, s)
  else
    let new_assessment : AssessmentRow :=
      { id := s.nextAssessmentId
        session_id := assessment.session_id
        answers := .str assessment.answers
        result := assessment.result
        severity_score := assessment.severity_score
        suggested_disorder_ids := some [assessment.disorder_id] }
    (.ok "Assessment added successfully",
     { s with assessments := s.assessments ++ [new_assessment]
              nextAssessmentId := s.nextAssessmentId + 1 })

/-- `GET /assessment/{assessment_id}` (src/app.py lines 127-133). -/
def get_assessment (s : Store) (assessment_id : Nat) : Except HTTPError AssessmentRow :=
  match s.assessments.find? (fun a => a.id == assessment_id) with
  | none => .error ⟨404, "Assessment not found"⟩
  | some assessment => .ok assessment

/-- `PATCH /assessment/{assessment_id}` (src/app.py lines 136-147): overwrites
every field, `session_id` included.  The commit fails with `IntegrityError`
when the new `session_id` is already held by a different row. -/
def update_assessment (s : Store) (assessment_id : Nat) (assessment : AssessmentSchema) :
    Except HTTPError String × Store :=
  match s.assessments.find? (fun a => a.id == assessment_id) with
  | none => (.error ⟨404, "Assessment not found"⟩, s)
  | some _ =>
    if s.assessments.any (fun a => a.id != assessment_id && a.session_id == assessment.session_id) then
      (.error ⟨500, "IntegrityError"⟩, s)
    else
      (.ok "Assessment updated successfully",
       { s with assessments := updateFirst (fun a => a.id == assessment_id)
                  (fun a => { a with session_id := assessment.session_id
                                     answers := .str assessment.answers
                                     result := assessment.result
                                     severity_score := assessment.severity_score
                                     suggested_disorder_ids := some [assessment.disorder_id] })
                  s.assessments })

/-- `DELETE /assessment/{assessment_id}` (src/app.py lines 150-157). -/
def delete_assessment (s : Store) (assessment_id : Nat) : Except HTTPError String × Store :=
  match s.assessments.find? (fun a => a.id == assessment_id) with
  | none => (.error ⟨404, "Assessment not found"⟩, s)
  | some _ =>
    (.ok "Assessment deleted successfully",
     { s with assessments := s.assessments.eraseP (fun a => a.id == assessment_id) })

end App

/-- Every store-mutating code path in the repository, as one step type. -/
inductive Op where
  | createDisorder (d : App.DisorderSchema)
  | updateDisorder (i : Nat) (d : App.DisorderSchema)
  | deleteDisorder (i : Nat)
  | createAssessmentLegacy (a : App.AssessmentSchema)
  | updateAssessmentLegacy (i : Nat) (a : App.AssessmentSchema)
  | deleteAssessmentLegacy (i : Nat)
  | createAssessment (req : Migration.AssessmentRequest) (sid : String)
  | seedData
deriving DecidableEq, Repr

/-- Apply one mutating operation to the store (the response is dropped). -/
def applyOp (s : Store) : Op → Store
  | .createDisorder d => (App.create_disorder s d).2
  | .updateDisorder i d => (App.update_disorder s i d).2
  | .deleteDisorder i => (App.delete_disorder s i).2
  | .createAssessmentLegacy a => (App.create_assessment s a).2
  | .updateAssessmentLegacy i a => (App.update_assessment s i a).2
  | .deleteAssessmentLegacy i => (App.delete_assessment s i).2
  | .createAssessment req sid => (Migration.create_assessment s req sid).2
  | .seedData => (Migration.seed_initial_data s).2

/-- Referential integrity of `remedies.disorder_id` (the `ForeignKey` on
models.py line 25): every stored remedy references a stored disorder. -/
def RefIntegrity (s : Store) : Prop :=
  ∀ r ∈ s.remedies, ∃ d ∈ s.disorders, d.id = r.disorder_id

/-- Well-formedness of the assessments table: primary keys are below the
autoincrement counter and pairwise distinct, and `session_id` values are
pairwise distinct (the unique index of models.py line 39). -/
def AssessInv (s : Store) : Prop :=
  (∀ a ∈ s.assessments, a.id < s.nextAssessmentId)
  ∧ (s.assessments.map AssessmentRow.id).Nodup
  ∧ (s.assessments.map AssessmentRow.session_id).Nodup

/-! ## Helper lemmas -/

theorem updateFirst_map_invariant {α β : Type} (p : α → Bool) (f : α → α) (g : α → β)
    (hg : ∀ a, g (f a) = g a) : ∀ l : List α, (updateFirst p f l).map g = l.map g
  | [] => rfl
  | x :: xs => by
    by_cases hx : p x <;>
      simp [updateFirst, hx, hg, updateFirst_map_invariant p f g hg xs]

theorem updateFirst_decomp {α : Type} (p : α → Bool) (f : α → α) :
    ∀ {l : List α} {a : α}, l.find? p = some a →
      ∃ l₁ l₂, l = l₁ ++ a :: l₂ ∧ (∀ b ∈ l₁, ¬ p b) ∧
        updateFirst p f l = l₁ ++ f a :: l₂
  | [], a, h => by simp [List.find?] at h
  | x :: xs, a, h => by
    by_cases hx : p x
    · have hxa : x = a := by simpa [List.find?, hx] using h
      subst hxa
      exact ⟨[], xs, by simp, by simp, by simp [updateFirst, hx]⟩
    · have hfind : xs.find? p = some a := by
        simpa [List.find?, hx] using h
      obtain ⟨l₁, l₂, hl, hl₁, hup⟩ := updateFirst_decomp p f hfind
      exact ⟨x :: l₁, l₂, by simp [hl], by simpa [hx] using hl₁,
        by simp [updateFirst, hx, hup]⟩

theorem find?_eq_some_of_mem_of_nodup {α β : Type} [DecidableEq β] {g : α → β} :
    ∀ {l : List α}, (l.map g).Nodup → ∀ {a : α}, a ∈ l →
      l.find? (fun b => g b == g a) = some a
  | [], _, a, ha => by cases ha
  | x :: xs, hnd, a, ha => by
    rcases List.mem_cons.1 ha with rfl | hmem
    · simp [List.find?]
    · have hgx : (g x == g a) = false := by
        refine beq_eq_false_iff_ne.2 ?_
        intro heq
        have : g a ∈ xs.map g := List.mem_map_of_mem g hmem
        rw [← heq] at this
        exact (List.nodup_cons.1 hnd).1 this
      have := find?_eq_some_of_mem_of_nodup (List.nodup_cons.1 hnd).2 hmem
      simp [List.find?, hgx, this]

theorem nodup_append_singleton {α : Type} {l : List α} {a : α} (h : l.Nodup) (ha : a ∉ l) :
    (l ++ [a]).Nodup := by
  rw [List.nodup_append]
  refine ⟨h, List.nodup_singleton a, ?_⟩
  intro x hx hx'
  simp at hx'
  subst hx'
  exact ha hx

theorem exists_mem_updateFirst {α β : Type} (p : α → Bool) (f : α → α) (g : α → β)
    (hg : ∀ a, g (f a) = g a) (l : List α) (x : β)
    (h : ∃ a ∈ l, g a = x) : ∃ a ∈ updateFirst p f l, g a = x := by
  obtain ⟨a, ha, hax⟩ := h
  have hx : x ∈ (updateFirst p f l).map g := by
    rw [updateFirst_map_invariant p f g hg]
    exact List.mem_map.2 ⟨a, ha, hax⟩
  obtain ⟨b, hb, hbx⟩ := List.mem_map.1 hx
  exact ⟨b, hb, hbx⟩

theorem any_eq_false_forall {α : Type} {l : List α} {p : α → Bool} (h : l.any p = false) :
    ∀ x ∈ l, p x = false := by
  intro x hx
  simp [List.any_eq_false] at h
  exact h x hx

/-- Every store-mutating code path preserves referential integrity of
`remedies.disorder_id`: no operation can leave an orphan remedy, because the
only remedy-removing path is the cascade (which removes exactly the children
of the deleted disorder) and the only remedy-creating path is the seed (which
points every new remedy at a disorder it just inserted). -/
theorem refIntegrity_create_disorder (s : Store) (d : App.DisorderSchema)
    (h : RefIntegrity s) : RefIntegrity (App.create_disorder s d).2 := by
  unfold App.create_disorder
  split
  · intro r hr
    obtain ⟨dd, hdd, hid⟩ := h r hr
    exact ⟨dd, List.mem_append_left _ hdd, hid⟩
  · exact h

theorem refIntegrity_update_disorder (s : Store) (i : Nat) (d : App.DisorderSchema)
    (h : RefIntegrity s) : RefIntegrity (App.update_disorder s i d).2 := by
  unfold App.update_disorder
  split
  · exact h
  · intro r hr
    exact exists_mem_updateFirst (fun x => x.id == i)
      (fun x => { x with name := d.name, description := d.description, symptoms := some d.symptoms })
      DisorderRow.id (fun _ => rfl) s.disorders r.disorder_id (h r hr)

theorem refIntegrity_delete_disorder (s : Store) (i : Nat)
    (h : RefIntegrity s) : RefIntegrity (App.delete_disorder s i).2 := by
  unfold App.delete_disorder
  split
  · exact h
  · intro r hr
    obtain ⟨hrmem, hrne⟩ := List.mem_filter.1 hr
    have hne : r.disorder_id ≠ i := by simpa using hrne
    obtain ⟨dd, hdd, hid⟩ := h r hrmem
    refine ⟨dd, (List.mem_eraseP_of_neg ?_).2 hdd, hid⟩
    simp [hid, hne]

theorem refIntegrity_create_assessment_legacy (s : Store) (a : App.AssessmentSchema)
    (h : RefIntegrity s) : RefIntegrity (App.create_assessment s a).2 := by
  unfold App.create_assessment
  split
  · exact h
  · exact h

theorem refIntegrity_update_assessment_legacy (s : Store) (i : Nat) (a : App.AssessmentSchema)
    (h : RefIntegrity s) : RefIntegrity (App.update_assessment s i a).2 := by
  unfold App.update_assessment
  split
  · exact h
  · split
    · exact h
    · exact h

theorem refIntegrity_delete_assessment_legacy (s : Store) (i : Nat)
    (h : RefIntegrity s) : RefIntegrity (App.delete_assessment s i).2 := by
  unfold App.delete_assessment
  split
  · exact h
  · exact h

theorem refIntegrity_create_assessment (s : Store) (req : Migration.AssessmentRequest)
    (sid : String) (h : RefIntegrity s) :
    RefIntegrity (Migration.create_assessment s req sid).2 := by
  unfold Migration.create_assessment
  split
  · exact h
  split
  · exact h
  split
  · exact h
  · exact h

theorem refIntegrity_seed (s : Store) (h : RefIntegrity s) :
    RefIntegrity (Migration.seed_initial_data s).2 := by
  unfold Migration.seed_initial_data
  split
  · exact h
  · rename_i hlen
    have hdis : s.disorders = [] := by
      refine List.length_eq_zero.1 ?_
      omega
    have hrem : s.remedies = [] := by
      cases hr : s.remedies with
      | nil => rfl
      | cons r rs =>
        obtain ⟨d, hd, -⟩ := h r (by rw [hr]; exact List.mem_cons_self r rs)
        rw [hdis] at hd
        cases hd
    intro r hr
    simp only [hrem, hdis, List.nil_append, List.mem_cons, List.not_mem_nil, or_false] at hr
    simp only [hdis, List.nil_append]
    rcases hr with rfl | rfl | rfl | rfl | rfl | rfl | rfl | rfl | rfl <;>
      simp

/-- Every store-mutating code path preserves referential integrity of
`remedies.disorder_id`: no operation can leave an orphan remedy, because the
only remedy-removing path is the cascade (which removes exactly the children
of the deleted disorder) and the only remedy-creating path is the seed (which
points every new remedy at a disorder it just inserted). -/
theorem refIntegrity_applyOp (s : Store) (op : Op) (h : RefIntegrity s) :
    RefIntegrity (applyOp s op) := by
  cases op with
  | createDisorder d => exact refIntegrity_create_disorder s d h
  | updateDisorder i d => exact refIntegrity_update_disorder s i d h
  | deleteDisorder i => exact refIntegrity_delete_disorder s i h
  | createAssessmentLegacy a => exact refIntegrity_create_assessment_legacy s a h
  | updateAssessmentLegacy i a => exact refIntegrity_update_assessment_legacy s i a h
  | deleteAssessmentLegacy i => exact refIntegrity_delete_assessment_legacy s i h
  | createAssessment req sid => exact refIntegrity_create_assessment s req sid h
  | seedData => exact refIntegrity_seed s h

theorem assessInv_create_disorder (s : Store) (d : App.DisorderSchema)
    (h : AssessInv s) : AssessInv (App.create_disorder s d).2 := by
  obtain ⟨hbound, hid, hsid⟩ := h
  unfold App.create_disorder
  split
  · exact ⟨hbound, hid, hsid⟩
  · exact ⟨hbound, hid, hsid⟩

theorem assessInv_update_disorder (s : Store) (i : Nat) (d : App.DisorderSchema)
    (h : AssessInv s) : AssessInv (App.update_disorder s i d).2 := by
  obtain ⟨hbound, hid, hsid⟩ := h
  unfold App.update_disorder
  split
  · exact ⟨hbound, hid, hsid⟩
  · exact ⟨hbound, hid, hsid⟩

theorem assessInv_delete_disorder (s : Store) (i : Nat)
    (h : AssessInv s) : AssessInv (App.delete_disorder s i).2 := by
  obtain ⟨hbound, hid, hsid⟩ := h
  unfold App.delete_disorder
  split
  · exact ⟨hbound, hid, hsid⟩
  · exact ⟨hbound, hid, hsid⟩

theorem assessInv_seed (s : Store) (h : AssessInv s) :
    AssessInv (Migration.seed_initial_data s).2 := by
  obtain ⟨hbound, hid, hsid⟩ := h
  unfold Migration.seed_initial_data
  split
  · exact ⟨hbound, hid, hsid⟩
  · exact ⟨hbound, hid, hsid⟩

theorem assessInv_create_assessment_legacy (s : Store) (x : App.AssessmentSchema)
    (h : AssessInv s) : AssessInv (App.create_assessment s x).2 := by
  obtain ⟨hbound, hid, hsid⟩ := h
  unfold App.create_assessment
  split
  · exact ⟨hbound, hid, hsid⟩
  · rename_i hany
    have hany' : s.assessments.any (fun a => a.session_id == x.session_id) = false :=
      Bool.not_eq_true _ ▸ Bool.of_not_eq_true hany
    refine ⟨?_, ?_, ?_⟩
    · intro y hy
      rcases List.mem_append.1 hy with hy | hy
      · exact Nat.lt_succ_of_lt (hbound y hy)
      · simp only [List.mem_singleton] at hy
        subst hy
        exact Nat.lt_succ_self _
    · rw [List.map_append]
      refine nodup_append_singleton hid ?_
      intro hc
      simp only [List.map_cons, List.map_nil] at hc
      obtain ⟨y, hy, hyid⟩ := List.mem_map.1 (by simpa using hc)
      have := hbound y hy
      omega
    · rw [List.map_append]
      refine nodup_append_singleton hsid ?_
      intro hc
      obtain ⟨y, hy, hysid⟩ := List.mem_map.1 (by simpa using hc)
      have := any_eq_false_forall hany' y hy
      simp [hysid] at this

theorem assessInv_update_assessment_legacy (s : Store) (i : Nat) (x : App.AssessmentSchema)
    (h : AssessInv s) : AssessInv (App.update_assessment s i x).2 := by
  obtain ⟨hbound, hid, hsid⟩ := h
  unfold App.update_assessment
  split
  · exact ⟨hbound, hid, hsid⟩
  · rename_i a₀ hf
    split
    · exact ⟨hbound, hid, hsid⟩
    · rename_i hconf
      have hconf' :
          s.assessments.any (fun a => a.id != i && a.session_id == x.session_id) = false :=
        Bool.not_eq_true _ ▸ Bool.of_not_eq_true hconf
      have ha₀i : a₀.id = i := by simpa using List.find?_some hf
      obtain ⟨l₁, l₂, hl, hl₁, hup⟩ :=
        updateFirst_decomp (fun a : AssessmentRow => a.id == i)
          (fun a : AssessmentRow =>
            { a with session_id := x.session_id, answers := .str x.answers
                     result := x.result, severity_score := x.severity_score
                     suggested_disorder_ids := some [x.disorder_id] }) hf
      have hmapid :
          (updateFirst (fun a : AssessmentRow => a.id == i)
            (fun a : AssessmentRow =>
              { a with session_id := x.session_id, answers := .str x.answers
                       result := x.result, severity_score := x.severity_score
                       suggested_disorder_ids := some [x.disorder_id] })
            s.assessments).map AssessmentRow.id = s.assessments.map AssessmentRow.id :=
        updateFirst_map_invariant (fun a : AssessmentRow => a.id == i)
          (fun a : AssessmentRow =>
            { a with session_id := x.session_id, answers := .str x.answers
                     result := x.result, severity_score := x.severity_score
                     suggested_disorder_ids := some [x.disorder_id] })
          AssessmentRow.id (fun _ => rfl) s.assessments
      refine ⟨?_, ?_, ?_⟩
      · intro y hy
        have : y.id ∈ s.assessments.map AssessmentRow.id := by
          rw [← hmapid]
          exact List.mem_map_of_mem _ hy
        obtain ⟨z, hz, hzy⟩ := List.mem_map.1 this
        rw [← hzy]
        exact hbound z hz
      · rw [hmapid]
        exact hid
      · rw [hup]
        simp only [List.map_append, List.map_cons]
        have hold : (l₁.map AssessmentRow.session_id ++
            a₀.session_id :: l₂.map AssessmentRow.session_id).Nodup := by
          rw [hl] at hsid
          simpa using hsid
        rw [List.nodup_middle, List.nodup_cons] at hold ⊢
        refine ⟨?_, hold.2⟩
        intro hc
        have hidnd : (l₁.map AssessmentRow.id ++
            a₀.id :: l₂.map AssessmentRow.id).Nodup := by
          rw [hl] at hid
          simpa using hid
        rw [List.nodup_middle, List.nodup_cons] at hidnd
        rcases List.mem_append.1 hc with hc | hc
        · obtain ⟨y, hy, hysid⟩ := List.mem_map.1 hc
          have hyne : y.id ≠ i := by simpa using hl₁ y hy
          have hymem : y ∈ s.assessments := by
            rw [hl]
            exact List.mem_append_left _ hy
          have hcontr := any_eq_false_forall hconf' y hymem
          simp [hysid, hyne] at hcontr
        · obtain ⟨y, hy, hysid⟩ := List.mem_map.1 hc
          have hyne : y.id ≠ i := by
            intro hyi
            refine hidnd.1 ?_
            refine List.mem_append_right _ ?_
            rw [ha₀i, ← hyi]
            exact List.mem_map_of_mem _ hy
          have hymem : y ∈ s.assessments := by
            rw [hl]
            exact List.mem_append_right _ (List.mem_cons_of_mem _ hy)
          have hcontr := any_eq_false_forall hconf' y hymem
          simp [hysid, hyne] at hcontr

theorem assessInv_delete_assessment_legacy (s : Store) (i : Nat)
    (h : AssessInv s) : AssessInv (App.delete_assessment s i).2 := by
  obtain ⟨hbound, hid, hsid⟩ := h
  unfold App.delete_assessment
  split
  · exact ⟨hbound, hid, hsid⟩
  · refine ⟨?_, ?_, ?_⟩
    · intro y hy
      exact hbound y (List.mem_of_mem_eraseP hy)
    · exact hid.sublist ((List.eraseP_sublist _).map _)
    · exact hsid.sublist ((List.eraseP_sublist _).map _)

theorem assessInv_create_assessment (s : Store) (req : Migration.AssessmentRequest)
    (sid : String) (h : AssessInv s) :
    AssessInv (Migration.create_assessment s req sid).2 := by
  obtain ⟨hbound, hid, hsid⟩ := h
  unfold Migration.create_assessment
  split
  · exact ⟨hbound, hid, hsid⟩
  split
  · exact ⟨hbound, hid, hsid⟩
  split
  · exact ⟨hbound, hid, hsid⟩
  · rename_i hany
    have hany' : s.assessments.any (fun a => a.session_id == sid) = false :=
      Bool.not_eq_true _ ▸ Bool.of_not_eq_true hany
    refine ⟨?_, ?_, ?_⟩
    · intro y hy
      rcases List.mem_append.1 hy with hy | hy
      · exact Nat.lt_succ_of_lt (hbound y hy)
      · simp only [List.mem_singleton] at hy
        subst hy
        exact Nat.lt_succ_self _
    · rw [List.map_append]
      refine nodup_append_singleton hid ?_
      intro hc
      obtain ⟨y, hy, hyid⟩ := List.mem_map.1 (by simpa using hc)
      have := hbound y hy
      omega
    · rw [List.map_append]
      refine nodup_append_singleton hsid ?_
      intro hc
      obtain ⟨y, hy, hysid⟩ := List.mem_map.1 (by simpa using hc)
      have := any_eq_false_forall hany' y hy
      simp [hysid] at this

theorem create_disorder_assessments (s : Store) (d : App.DisorderSchema) :
    (App.create_disorder s d).2.assessments = s.assessments := by
  unfold App.create_disorder
  split <;> rfl

theorem update_disorder_assessments (s : Store) (i : Nat) (d : App.DisorderSchema) :
    (App.update_disorder s i d).2.assessments = s.assessments := by
  unfold App.update_disorder
  split <;> rfl

theorem delete_disorder_assessments (s : Store) (i : Nat) :
    (App.delete_disorder s i).2.assessments = s.assessments := by
  unfold App.delete_disorder
  split <;> rfl

theorem seed_assessments (s : Store) :
    (Migration.seed_initial_data s).2.assessments = s.assessments := by
  unfold Migration.seed_initial_data
  split <;> rfl

theorem create_assessment_legacy_assessments (s : Store) (x : App.AssessmentSchema) :
    (App.create_assessment s x).2.assessments = s.assessments ∨
    (App.create_assessment s x).2.assessments = s.assessments ++
      [⟨s.nextAssessmentId, x.session_id, .str x.answers, x.result,
        x.severity_score, some [x.disorder_id]⟩] := by
  unfold App.create_assessment
  split
  · exact Or.inl rfl
  · exact Or.inr rfl

theorem create_assessment_migration_assessments (s : Store)
    (req : Migration.AssessmentRequest) (sid : String) :
    (Migration.create_assessment s req sid).2.assessments = s.assessments ∨
    (Migration.create_assessment s req sid).2.assessments = s.assessments ++
      [⟨s.nextAssessmentId, sid, .list req.answers,
        (Migration.calculate_assessment_result req.answers).result,
        (Migration.calculate_assessment_result req.answers).severity_score, none⟩] := by
  unfold Migration.create_assessment
  split
  · exact Or.inl rfl
  split
  · exact Or.inl rfl
  split
  · exact Or.inl rfl
  · exact Or.inr rfl

theorem delete_assessment_legacy_assessments (s : Store) (i : Nat) :
    (App.delete_assessment s i).2.assessments = s.assessments ∨
    (App.delete_assessment s i).2.assessments =
      s.assessments.eraseP (fun a => a.id == i) := by
  unfold App.delete_assessment
  split
  · exact Or.inl rfl
  · exact Or.inr rfl

/-- Every store-mutating code path preserves well-formedness of the
assessments table, in particular uniqueness of `session_id`. -/
theorem assessInv_applyOp (s : Store) (op : Op) (h : AssessInv s) :
    AssessInv (applyOp s op) := by
  cases op with
  | createDisorder d => exact assessInv_create_disorder s d h
  | updateDisorder i d => exact assessInv_update_disorder s i d h
  | deleteDisorder i => exact assessInv_delete_disorder s i h
  | createAssessmentLegacy a => exact assessInv_create_assessment_legacy s a h
  | updateAssessmentLegacy i a => exact assessInv_update_assessment_legacy s i a h
  | deleteAssessmentLegacy i => exact assessInv_delete_assessment_legacy s i h
  | createAssessment req sid => exact assessInv_create_assessment s req sid h
  | seedData => exact assessInv_seed s h

/-- Apart from the legacy `PATCH /assessment/{id}` endpoint, no operation ever
changes the `session_id` of a stored assessment: a surviving row with the same
primary key still carries the same session token. -/
theorem sessionId_stable_applyOp (s : Store) (op : Op)
    (hbound : ∀ a ∈ s.assessments, a.id < s.nextAssessmentId)
    (hid : (s.assessments.map AssessmentRow.id).Nodup)
    (hop : ∀ i a, op ≠ Op.updateAssessmentLegacy i a) :
    ∀ x ∈ s.assessments, ∀ y ∈ (applyOp s op).assessments,
      y.id = x.id → y.session_id = x.session_id := by
  have base : ∀ x ∈ s.assessments, ∀ y ∈ s.assessments,
      y.id = x.id → y.session_id = x.session_id := by
    intro x hx y hy hxy
    rw [List.inj_on_of_nodup_map hid hy hx hxy]
  have append_case : ∀ row : AssessmentRow, row.id = s.nextAssessmentId →
      ∀ x ∈ s.assessments, ∀ y ∈ s.assessments ++ [row],
        y.id = x.id → y.session_id = x.session_id := by
    intro row hrow x hx y hy hxy
    rcases List.mem_append.1 hy with hy | hy
    · exact base x hx y hy hxy
    · simp only [List.mem_singleton] at hy
      subst hy
      have := hbound x hx
      rw [hrow] at hxy
      omega
  cases op with
  | createDisorder d =>
    intro x hx y hy hxy
    simp only [applyOp] at hy
    rw [create_disorder_assessments s d] at hy
    exact base x hx y hy hxy
  | updateDisorder i d =>
    intro x hx y hy hxy
    simp only [applyOp] at hy
    rw [update_disorder_assessments s i d] at hy
    exact base x hx y hy hxy
  | deleteDisorder i =>
    intro x hx y hy hxy
    simp only [applyOp] at hy
    rw [delete_disorder_assessments s i] at hy
    exact base x hx y hy hxy
  | createAssessmentLegacy a =>
    intro x hx y hy hxy
    simp only [applyOp] at hy
    rcases create_assessment_legacy_assessments s a with hcase | hcase
    · rw [hcase] at hy
      exact base x hx y hy hxy
    · rw [hcase] at hy
      exact append_case _ rfl x hx y hy hxy
  | updateAssessmentLegacy i a => exact absurd rfl (hop i a)
  | deleteAssessmentLegacy i =>
    intro x hx y hy hxy
    simp only [applyOp] at hy
    rcases delete_assessment_legacy_assessments s i with hcase | hcase
    · rw [hcase] at hy
      exact base x hx y hy hxy
    · rw [hcase] at hy
      exact base x hx y (List.mem_of_mem_eraseP hy) hxy
  | createAssessment req sid =>
    intro x hx y hy hxy
    simp only [applyOp] at hy
    rcases create_assessment_migration_assessments s req sid with hcase | hcase
    · rw [hcase] at hy
      exact base x hx y hy hxy
    · rw [hcase] at hy
      exact append_case _ rfl x hx y hy hxy
  | seedData =>
    intro x hx y hy hxy
    simp only [applyOp] at hy
    rw [seed_assessments s] at hy
    exact base x hx y hy hxy


/-! ## Claim theorems -/

theorem calculate_assessment_result_cases (answers : List String) :
    Migration.calculate_assessment_result answers =
      if 4 ≤ Migration.yes_count answers then
        ⟨Migration.highResult, "high", Migration.yes_count answers, Migration.highRemedies⟩
      else if 2 ≤ Migration.yes_count answers then
        ⟨Migration.mediumResult, "medium", Migration.yes_count answers, Migration.mediumRemedies⟩
      else
        ⟨Migration.lowResult, "low", Migration.yes_count answers, Migration.lowRemedies⟩ := rfl

/-- C1: for every list of at least 5 answers, `severityScore` is the number of
answers case-insensitively equal to "yes", and the tier is "high" with its
fixed narrative and fixed 5-entry remedy list when that count is ≥ 4, "medium"
when it is 2 or 3, and "low" when it is ≤ 1 (a count of 6 is still "high"). -/
theorem C1_scoring_tiers (answers : List String) (h : 5 ≤ answers.length) :
    (Migration.calculate_assessment_result answers).severity_score = Migration.yes_count answers
    ∧ (4 ≤ Migration.yes_count answers →
        (Migration.calculate_assessment_result answers).severity = "high"
        ∧ (Migration.calculate_assessment_result answers).result = Migration.highResult
        ∧ (Migration.calculate_assessment_result answers).remedies = Migration.highRemedies
        ∧ (Migration.calculate_assessment_result answers).remedies.length = 5)
    ∧ ((Migration.yes_count answers = 2 ∨ Migration.yes_count answers = 3) →
        (Migration.calculate_assessment_result answers).severity = "medium"
        ∧ (Migration.calculate_assessment_result answers).result = Migration.mediumResult
        ∧ (Migration.calculate_assessment_result answers).remedies = Migration.mediumRemedies
        ∧ (Migration.calculate_assessment_result answers).remedies.length = 5)
    ∧ (Migration.yes_count answers ≤ 1 →
        (Migration.calculate_assessment_result answers).severity = "low"
        ∧ (Migration.calculate_assessment_result answers).result = Migration.lowResult
        ∧ (Migration.calculate_assessment_result answers).remedies = Migration.lowRemedies
        ∧ (Migration.calculate_assessment_result answers).remedies.length = 5) := by
  rw [calculate_assessment_result_cases answers]
  split_ifs with h4 h2
  · refine ⟨rfl, fun _ => ⟨rfl, rfl, rfl, rfl⟩, ?_, ?_⟩
    · intro hc
      rcases hc with hc | hc <;> omega
    · intro hc
      omega
  · refine ⟨rfl, fun hc => by omega, fun _ => ⟨rfl, rfl, rfl, rfl⟩, fun hc => by omega⟩
  · refine ⟨rfl, fun hc => by omega, ?_, fun _ => ⟨rfl, rfl, rfl, rfl⟩⟩
    intro hc
    rcases hc with hc | hc <;> omega

theorem C1_scoring_tiers_witness :
    (Migration.calculate_assessment_result ["yes", "yes", "yes", "yes", "no"]).severity = "high"
    ∧ (Migration.calculate_assessment_result ["yes", "yes", "yes", "yes", "no"]).result
        = Migration.highResult
    ∧ (Migration.calculate_assessment_result ["yes", "yes", "yes", "yes", "no"]).remedies.length
        = 5 :=
  have h := C1_scoring_tiers ["yes", "yes", "yes", "yes", "no"] (by decide)
  have hh := h.2.1 (by decide)
  ⟨hh.1, hh.2.1, hh.2.2.2⟩

/-- C2: a submission with fewer than 5 answers (the empty list included) is
rejected with HTTP 400 and the store comes back unchanged — no Assessment row
is created. -/
theorem C2_short_submission_rejected (s : Store) (req : Migration.AssessmentRequest)
    (sid : String) (h : req.answers.length < 5) :
    (∃ e : HTTPError, (Migration.create_assessment s req sid).1 = .error e ∧ e.status = 400)
    ∧ (Migration.create_assessment s req sid).2 = s := by
  unfold Migration.create_assessment
  by_cases he : req.answers.isEmpty
  · simp only [if_pos he]
    exact ⟨⟨⟨400, "Answers are required"⟩, by simp, by simp⟩, by simp⟩
  · simp only [if_neg he, if_pos h]
    exact ⟨⟨⟨400, "Please answer all questions"⟩, by simp, by simp⟩, by simp⟩

theorem C2_short_submission_rejected_witness :
    (["yes", "no"] : List String).length < 5
    ∧ (Migration.create_assessment Store.empty ⟨["yes", "no"]⟩ "sid").2 = Store.empty :=
  ⟨by decide, (C2_short_submission_rejected Store.empty ⟨["yes", "no"]⟩ "sid" (by decide)).2⟩

/-- C7: the question listing returns exactly the rows with `is_active = 1`
(same multiset, so inactive rows never appear) sorted by `order_index`
ascending. -/
theorem C7_questions_active_sorted (s : Store) :
    List.Sorted (fun a b : QuestionRow => a.order_index ≤ b.order_index)
      (Migration.get_questions s)
    ∧ (∀ q : QuestionRow, q ∈ Migration.get_questions s ↔ q ∈ s.questions ∧ q.is_active = 1)
    ∧ List.Perm (Migration.get_questions s)
        (s.questions.filter (fun q => q.is_active == 1)) := by
  refine ⟨List.sorted_insertionSort _ _, ?_, List.perm_insertionSort _ _⟩
  intro q
  unfold Migration.get_questions
  rw [(List.perm_insertionSort (fun a b : QuestionRow => a.order_index ≤ b.order_index)
    (s.questions.filter (fun q => q.is_active == 1))).mem_iff]
  simp [List.mem_filter]

/-- C9: the duplicate check in `create_disorder` compares names with exact,
case-sensitive equality: after creating "Depression", creating "depression"
inserts a second row instead of returning the already-exists message. -/
theorem C9_duplicate_check_case_sensitive :
    (App.create_disorder
        (App.create_disorder Store.empty ⟨"Depression", "desc", "sym"⟩).2
        ⟨"depression", "desc2", "sym2"⟩).1 = "Disorder created successfully"
    ∧ (App.create_disorder
        (App.create_disorder Store.empty ⟨"Depression", "desc", "sym"⟩).2
        ⟨"depression", "desc2", "sym2"⟩).2.disorders.map DisorderRow.name
      = ["Depression", "depression"]
    ∧ (App.create_disorder
        (App.create_disorder Store.empty ⟨"Depression", "desc", "sym"⟩).2
        ⟨"Depression", "desc2", "sym2"⟩).1 = "Disorder already exists" := by
  decide

/-- C10: the scoring function is total: on every list of strings (the empty
list included) it returns the yes-count as score, a severity among
low/medium/high and a 5-entry remedy list, and with no "yes" answers the
score is 0 and the tier "low". -/
theorem C10_scoring_total (answers : List String) :
    (Migration.calculate_assessment_result answers).severity_score = Migration.yes_count answers
    ∧ ((Migration.calculate_assessment_result answers).severity = "low"
       ∨ (Migration.calculate_assessment_result answers).severity = "medium"
       ∨ (Migration.calculate_assessment_result answers).severity = "high")
    ∧ (Migration.calculate_assessment_result answers).remedies.length = 5
    ∧ (Migration.yes_count answers = 0 →
        (Migration.calculate_assessment_result answers).severity_score = 0
        ∧ (Migration.calculate_assessment_result answers).severity = "low")
    ∧ (Migration.calculate_assessment_result []).severity_score = 0
    ∧ (Migration.calculate_assessment_result []).severity = "low" := by
  rw [calculate_assessment_result_cases answers]
  split_ifs with h4 h2
  · exact ⟨rfl, Or.inr (Or.inr rfl), rfl, fun hc => by omega, by decide, by decide⟩
  · exact ⟨rfl, Or.inr (Or.inl rfl), rfl, fun hc => by omega, by decide, by decide⟩
  · exact ⟨rfl, Or.inl rfl, rfl, fun hc => ⟨hc, rfl⟩, by decide, by decide⟩

theorem C10_scoring_total_witness :
    Migration.yes_count ["no", "no"] = 0
    ∧ (Migration.calculate_assessment_result ["no", "no"]).severity_score = 0
    ∧ (Migration.calculate_assessment_result ["no", "no"]).severity = "low" :=
  have h := (C10_scoring_total ["no", "no"]).2.2.2.1 (by decide)
  ⟨by decide, h.1, h.2⟩

/-- C3: creating a Disorder whose name is already stored performs no insert,
returns the informational already-exists message (not an error), and leaves
exactly one row with that name; creating the same name twice in a row is a
no-op on the second call. -/
theorem C3_duplicate_disorder_noop (s : Store) (d : App.DisorderSchema)
    (h : s.disorders.countP (fun r => r.name == d.name) = 1) :
    App.create_disorder s d = ("Disorder already exists", s)
    ∧ (App.create_disorder s d).2.disorders.countP (fun r => r.name == d.name) = 1
    ∧ (∀ t : Store, (∀ r ∈ t.disorders, r.name ≠ d.name) →
        App.create_disorder (App.create_disorder t d).2 d
          = ("Disorder already exists", (App.create_disorder t d).2)
        ∧ (App.create_disorder t d).2.disorders.countP (fun r => r.name == d.name) = 1) := by
  have hpos : 0 < s.disorders.countP (fun r => r.name == d.name) := by omega
  obtain ⟨r0, hr0, hr0p⟩ := List.countP_pos_iff.1 hpos
  have hsome : ∃ x, s.disorders.find? (fun r => r.name == d.name) = some x := by
    cases hf : s.disorders.find? (fun r => r.name == d.name) with
    | none => exact absurd hr0p (by simpa using List.find?_eq_none.1 hf r0 hr0)
    | some x => exact ⟨x, rfl⟩
  obtain ⟨x0, hf⟩ := hsome
  have hfirst : App.create_disorder s d = ("Disorder already exists", s) := by
    simp only [App.create_disorder, hf]
  refine ⟨hfirst, by rw [hfirst]; exact h, ?_⟩
  intro t ht
  have hnone : t.disorders.find? (fun r => r.name == d.name) = none :=
    List.find?_eq_none.2 (fun r hr => by simpa using ht r hr)
  have hcnt0 : t.disorders.countP (fun r => r.name == d.name) = 0 :=
    List.countP_eq_zero.2 (fun r hr => by simpa using ht r hr)
  have h1 : App.create_disorder t d =
      ("Disorder created successfully",
       { t with
          disorders := t.disorders ++
            [⟨t.nextDisorderId, d.name, d.description, some d.symptoms⟩],
          nextDisorderId := t.nextDisorderId + 1 }) := by
    simp only [App.create_disorder, hnone]
  have h2 : (t.disorders ++
      [(⟨t.nextDisorderId, d.name, d.description, some d.symptoms⟩ : DisorderRow)]).find?
        (fun r => r.name == d.name) =
      some ⟨t.nextDisorderId, d.name, d.description, some d.symptoms⟩ := by
    rw [List.find?_append, hnone]
    simp [List.find?]
  constructor
  · rw [h1]
    simp only [App.create_disorder, h2]
  · rw [h1]
    simp [List.countP_append, hcnt0, List.countP_cons]

theorem C3_duplicate_disorder_noop_witness :
    ((App.create_disorder Store.empty ⟨"Depression", "desc", "sym"⟩).2.disorders.countP
      (fun r => r.name == "Depression") = 1)
    ∧ App.create_disorder (App.create_disorder Store.empty ⟨"Depression", "desc", "sym"⟩).2
        ⟨"Depression", "desc", "sym"⟩
      = ("Disorder already exists",
         (App.create_disorder Store.empty ⟨"Depression", "desc", "sym"⟩).2) :=
  have h := C3_duplicate_disorder_noop
    (App.create_disorder Store.empty ⟨"Depression", "desc", "sym"⟩).2
    ⟨"Depression", "desc", "sym"⟩ (by decide)
  ⟨by decide, h.1⟩

/-- C6: a valid submission (≥ 5 answers, fresh session token) stores the
submitted answers verbatim: reading the assessment back by its session id
returns a row whose answers equal the submitted sequence, order preserved. -/
theorem C6_roundtrip_answers (s : Store) (req : Migration.AssessmentRequest) (sid : String)
    (h5 : 5 ≤ req.answers.length)
    (hfresh : ∀ a ∈ s.assessments, a.session_id ≠ sid) :
    ∃ row : AssessmentRow,
      Migration.get_assessment (Migration.create_assessment s req sid).2 sid = .ok row
      ∧ row.answers = .list req.answers
      ∧ row.session_id = sid := by
  have hne : req.answers.isEmpty = false := by
    cases hq : req.answers with
    | nil => rw [hq] at h5; simp at h5
    | cons a l => rfl
  have hlt : ¬(req.answers.length < 5) := by omega
  have hany : s.assessments.any (fun a => a.session_id == sid) = false := by
    rw [List.any_eq_false]
    intro a ha
    simpa using hfresh a ha
  have hstore : (Migration.create_assessment s req sid).2 =
      { s with
          assessments := s.assessments ++
            [⟨s.nextAssessmentId, sid, .list req.answers,
              (Migration.calculate_assessment_result req.answers).result,
              (Migration.calculate_assessment_result req.answers).severity_score, none⟩],
          nextAssessmentId := s.nextAssessmentId + 1 } := by
    simp only [Migration.create_assessment, hne, Bool.false_eq_true, if_false, hlt,
      if_false, hany]
  have hfind : s.assessments.find? (fun a => a.session_id == sid) = none :=
    List.find?_eq_none.2 (fun a ha => by simpa using hfresh a ha)
  refine ⟨⟨s.nextAssessmentId, sid, .list req.answers,
    (Migration.calculate_assessment_result req.answers).result,
    (Migration.calculate_assessment_result req.answers).severity_score, none⟩, ?_, rfl, rfl⟩
  rw [hstore]
  unfold Migration.get_assessment
  rw [show ({ s with
      assessments := s.assessments ++
        [⟨s.nextAssessmentId, sid, .list req.answers,
          (Migration.calculate_assessment_result req.answers).result,
          (Migration.calculate_assessment_result req.answers).severity_score, none⟩],
      nextAssessmentId := s.nextAssessmentId + 1 } : Store).assessments =
    s.assessments ++
      [⟨s.nextAssessmentId, sid, .list req.answers,
        (Migration.calculate_assessment_result req.answers).result,
        (Migration.calculate_assessment_result req.answers).severity_score, none⟩] from rfl]
  rw [List.find?_append, hfind]
  simp [List.find?]

theorem C6_roundtrip_answers_witness :
    ∃ row : AssessmentRow,
      Migration.get_assessment
        (Migration.create_assessment Store.empty ⟨["yes", "no", "no", "no", "no"]⟩ "sid").2
        "sid" = .ok row
      ∧ row.answers = .list ["yes", "no", "no", "no", "no"]
      ∧ row.session_id = "sid" :=
  C6_roundtrip_answers Store.empty ⟨["yes", "no", "no", "no", "no"]⟩ "sid"
    (by decide) (by intro a ha; cases ha)

/-- C8: for an absent id (or session id), every getById / update / delete
endpoint answers HTTP 404 with a human-readable message and leaves the store
unchanged; for a present id, getById returns the single matching record. -/
theorem C8_notfound_and_lookup (s : Store) (i j k : Nat) (sid : String)
    (x : App.DisorderSchema) (y : App.AssessmentSchema)
    (hd : ∀ d ∈ s.disorders, d.id ≠ i)
    (ha : ∀ a ∈ s.assessments, a.id ≠ j)
    (hr : ∀ r ∈ s.remedies, r.id ≠ k)
    (hsid : ∀ a ∈ s.assessments, a.session_id ≠ sid)
    (hdnodup : (s.disorders.map DisorderRow.id).Nodup)
    (hrnodup : (s.remedies.map RemedyRow.id).Nodup) :
    App.get_disorder s i = .error ⟨404, "Disorder not found"⟩
    ∧ App.update_disorder s i x = (.error ⟨404, "Disorder not found"⟩, s)
    ∧ App.delete_disorder s i = (.error ⟨404, "Disorder not found"⟩, s)
    ∧ App.get_assessment s j = .error ⟨404, "Assessment not found"⟩
    ∧ App.update_assessment s j y = (.error ⟨404, "Assessment not found"⟩, s)
    ∧ App.delete_assessment s j = (.error ⟨404, "Assessment not found"⟩, s)
    ∧ Migration.get_disorder s i = .error ⟨404, "Disorder not found"⟩
    ∧ Migration.get_remedy s k = .error ⟨404, "Remedy not found"⟩
    ∧ Migration.get_assessment s sid = .error ⟨404, "Assessment not found"⟩
    ∧ (∀ d ∈ s.disorders, App.get_disorder s d.id = .ok d)
    ∧ (∀ r ∈ s.remedies, Migration.get_remedy s r.id = .ok r) := by
  have hdf : s.disorders.find? (fun d => d.id == i) = none :=
    List.find?_eq_none.2 (fun d hmem => by simpa using hd d hmem)
  have haf : s.assessments.find? (fun a => a.id == j) = none :=
    List.find?_eq_none.2 (fun a hmem => by simpa using ha a hmem)
  have hrf : s.remedies.find? (fun r => r.id == k) = none :=
    List.find?_eq_none.2 (fun r hmem => by simpa using hr r hmem)
  have hsf : s.assessments.find? (fun a => a.session_id == sid) = none :=
    List.find?_eq_none.2 (fun a hmem => by simpa using hsid a hmem)
  refine ⟨?_, ?_, ?_, ?_, ?_, ?_, ?_, ?_, ?_, ?_, ?_⟩
  · simp only [App.get_disorder, hdf]
  · simp only [App.update_disorder, hdf]
  · simp only [App.delete_disorder, hdf]
  · simp only [App.get_assessment, haf]
  · simp only [App.update_assessment, haf]
  · simp only [App.delete_assessment, haf]
  · simp only [Migration.get_disorder, hdf]
  · simp only [Migration.get_remedy, hrf]
  · simp only [Migration.get_assessment, hsf]
  · intro d hmem
    have := find?_eq_some_of_mem_of_nodup hdnodup hmem
    simp only [App.get_disorder, this]
  · intro r hmem
    have := find?_eq_some_of_mem_of_nodup hrnodup hmem
    simp only [Migration.get_remedy, this]

theorem C8_notfound_and_lookup_witness :
    (Migration.get_remedy Store.empty 7 = .error ⟨404, "Remedy not found"⟩)
    ∧ App.get_disorder Store.empty 7 = .error ⟨404, "Disorder not found"⟩ :=
  have h := C8_notfound_and_lookup Store.empty 7 7 7 "sid"
    ⟨"n", "d", "s"⟩ ⟨"sid", "a", "r", 0, 1⟩
    (by intro d hd; cases hd) (by intro a ha; cases ha)
    (by intro r hr; cases hr) (by intro a ha; cases ha)
    (by decide) (by decide)
  ⟨h.2.2.2.2.2.2.2.1, h.1⟩

/-- C4: deleting a stored Disorder cascades to its remedies: afterwards no
remedy row references it and getById on any removed remedy id answers 404;
moreover every store-mutating operation preserves referential integrity, so a
stored remedy always references a stored disorder. -/
theorem C4_delete_cascades (s : Store) (i : Nat)
    (hpresent : ∃ d ∈ s.disorders, d.id = i)
    (hrnodup : (s.remedies.map RemedyRow.id).Nodup) :
    (∀ r ∈ (App.delete_disorder s i).2.remedies, r.disorder_id ≠ i)
    ∧ (∀ r ∈ s.remedies, r.disorder_id = i →
        Migration.get_remedy (App.delete_disorder s i).2 r.id
          = .error ⟨404, "Remedy not found"⟩)
    ∧ (∀ t : Store, ∀ op : Op, RefIntegrity t → RefIntegrity (applyOp t op)) := by
  obtain ⟨d0, hd0, hd0i⟩ := hpresent
  have hsome : ∃ z, s.disorders.find? (fun d => d.id == i) = some z := by
    cases hf : s.disorders.find? (fun d => d.id == i) with
    | none =>
      have := List.find?_eq_none.1 hf d0 hd0
      simp [hd0i] at this
    | some z => exact ⟨z, rfl⟩
  obtain ⟨z0, hf⟩ := hsome
  have hdel : (App.delete_disorder s i).2 =
      { s with
          disorders := s.disorders.eraseP (fun d => d.id == i),
          remedies := s.remedies.filter (fun r => !(r.disorder_id == i)) } := by
    simp only [App.delete_disorder, hf]
  refine ⟨?_, ?_, fun t op h => refIntegrity_applyOp t op h⟩
  · intro r hmem
    rw [hdel] at hmem
    have : (!(r.disorder_id == i)) = true := (List.mem_filter.1 hmem).2
    simpa using this
  · intro r hmem hri
    rw [hdel]
    have hnone : (s.remedies.filter (fun r => !(r.disorder_id == i))).find?
        (fun z => z.id == r.id) = none := by
      refine List.find?_eq_none.2 ?_
      intro z hz
      obtain ⟨hzmem, hzkeep⟩ := List.mem_filter.1 hz
      intro hzid
      have : z = r := List.inj_on_of_nodup_map hrnodup hzmem hmem (by simpa using hzid)
      subst this
      simp [hri] at hzkeep
    simp only [Migration.get_remedy, hnone]

theorem C4_delete_cascades_witness :
    (∃ d ∈ (Migration.seed_initial_data Store.empty).2.disorders, d.id = 1)
    ∧ (∀ r ∈ (App.delete_disorder (Migration.seed_initial_data Store.empty).2 1).2.remedies,
        r.disorder_id ≠ 1) :=
  ⟨by decide,
   (C4_delete_cascades (Migration.seed_initial_data Store.empty).2 1
     (by decide) (by decide)).1⟩

/-- C5 counterexample: `session_id` is NOT immutable.  On a store holding one
assessment with session token "s1", the legacy `PATCH /assessment/1` endpoint
overwrites the stored token with the caller-supplied "s2". -/
theorem C5_counterexample_session_id_mutable :
    ((App.update_assessment
        { Store.empty with
            assessments := [⟨1, "s1", .str "a", "r", 0, none⟩], nextAssessmentId := 2 }
        1 ⟨"s2", "a2", "r2", 3, 1⟩).2.assessments.map AssessmentRow.session_id = ["s2"])
    ∧ ((App.update_assessment
        { Store.empty with
            assessments := [⟨1, "s1", .str "a", "r", 0, none⟩], nextAssessmentId := 2 }
        1 ⟨"s2", "a2", "r2", 3, 1⟩).1 = .ok "Assessment updated successfully")
    ∧ "s2" ≠ "s1" := by
  refine ⟨by decide, by rfl, by decide⟩

/-- C5 (amended): `session_id` stays unique across every operation (the store
enforces the unique index), and no operation except the legacy
`PATCH /assessment/{id}` endpoint ever changes a stored `session_id`; that
endpoint overwrites it with the caller-supplied value. -/
theorem C5_session_unique_mutable_only_via_legacy_update :
    (∀ s : Store, ∀ op : Op, AssessInv s → AssessInv (applyOp s op))
    ∧ (∀ s : Store, ∀ op : Op, AssessInv s →
        (∀ i a, op ≠ Op.updateAssessmentLegacy i a) →
        ∀ x ∈ s.assessments, ∀ y ∈ (applyOp s op).assessments,
          y.id = x.id → y.session_id = x.session_id)
    ∧ (∀ s : Store, ∀ i : Nat, ∀ x : App.AssessmentSchema, ∀ a₀ : AssessmentRow,
        s.assessments.find? (fun a => a.id == i) = some a₀ →
        s.assessments.any (fun a => a.id != i && a.session_id == x.session_id) = false →
        ∃ y ∈ (App.update_assessment s i x).2.assessments,
          y.id = i ∧ y.session_id = x.session_id) := by
  refine ⟨fun s op h => assessInv_applyOp s op h,
    fun s op h hop => sessionId_stable_applyOp s op h.1 h.2.1 hop, ?_⟩
  intro s i x a₀ hf hconf
  have hai : a₀.id = i := by simpa using List.find?_some hf
  obtain ⟨l₁, l₂, hl, hl₁, hup⟩ :=
    updateFirst_decomp (fun a : AssessmentRow => a.id == i)
      (fun a : AssessmentRow =>
        { a with session_id := x.session_id, answers := .str x.answers
                 result := x.result, severity_score := x.severity_score
                 suggested_disorder_ids := some [x.disorder_id] }) hf
  have hres : (App.update_assessment s i x).2.assessments =
      updateFirst (fun a : AssessmentRow => a.id == i)
        (fun a : AssessmentRow =>
          { a with session_id := x.session_id, answers := .str x.answers
                   result := x.result, severity_score := x.severity_score
                   suggested_disorder_ids := some [x.disorder_id] }) s.assessments := by
    simp only [App.update_assessment, hf, hconf, Bool.false_eq_true, if_false]
  rw [hres, hup]
  exact ⟨_, List.mem_append_right _ (List.mem_cons_self _ _), hai, rfl⟩

theorem C5_session_unique_mutable_only_via_legacy_update_witness :
    ∃ y ∈ (App.update_assessment
        { Store.empty with
            assessments := [⟨1, "s1", .str "a", "r", 0, none⟩], nextAssessmentId := 2 }
        1 ⟨"s2", "a2", "r2", 3, 1⟩).2.assessments,
      y.id = 1 ∧ y.session_id = "s2" :=
  C5_session_unique_mutable_only_via_legacy_update.2.2
    { Store.empty with
        assessments := [⟨1, "s1", .str "a", "r", 0, none⟩], nextAssessmentId := 2 }
    1 ⟨"s2", "a2", "r2", 3, 1⟩ ⟨1, "s1", .str "a", "r", 0, none⟩ (by rfl) (by rfl)
